import Mathlib

/-!
# Ocean Navigator front-end components

A shallow embedding of three React components of the Ocean Navigator
front-end and the properties of their handlers:

* `RefPoint`  (components/ModelLayers/Point/RefPoint.jsx)
* `MapInputs` (components/MapInputs.jsx)
* `BathLayer` (components/ModelLayers/BathLayer.jsx)

Conventions of the embedding.

* A handler is a function from the component's world (its state, plus the
  log of the calls it made on its parent's callbacks and on jQuery) to an
  `Outcome`: how the handler completed and the world it left.
* A JavaScript value that may be `undefined` is an `Option`; `none` is
  `undefined`.
* A callback prop of the parent's layer registry is a function from its
  arguments to `Option JsError`: `none` when the call returns normally,
  `some e` when it throws `e`.  Every call is appended to the log together
  with that result.
* `setState` is applied before the handler's outcome is observed: the world
  of an outcome is the world once React has applied the handler's state
  update and run its completion callback.  React drops the update of a
  component it has unmounted and never runs the completion callback of a
  dropped update.
-/

namespace OceanNavigator

/-! ## JavaScript completions -/

/-- An exception value: the `TypeError` the engine raises on a property read
of `undefined`, or a value thrown by a callback of the parent. -/
inductive JsError where
  | typeError
  | thrown (what : String)
  deriving DecidableEq, Repr

/-- How a handler completes: it returns, it throws, or it never leaves a
busy-wait loop. -/
inductive Completion where
  | returned
  | threw (e : JsError)
  | spins
  deriving DecidableEq, Repr

/-- The result of running a handler: its completion and the world it left. -/
structure Outcome (σ : Type) where
  completion : Completion
  final : σ
  deriving DecidableEq, Repr

/-! ## RefPoint -/

namespace RefPoint

/-- The object literal `line_3d` of `updatePoint`:
`{x: [x], y: [y], z: [depth], type: 'scatter3d'}`. -/
structure PointLayer (α : Type) where
  x : List α
  y : List α
  z : List α
  type : String
  deriving DecidableEq, Repr

/-- The props of RefPoint: `x`, `y`, `depth` and the two callbacks of the
parent's layer registry. -/
structure Props (α : Type) where
  x : α
  y : α
  depth : α
  updateDataLayer : Option (PointLayer α) → PointLayer α → Option JsError
  removeDataLayer : PointLayer α → Option JsError

/-- The component state `this.state`. -/
structure State (α : Type) where
  point : List α
  point_layer : Option (PointLayer α)
  deriving DecidableEq, Repr

/-- A call made on the parent's layer registry. -/
inductive Call (α : Type) where
  | updateDataLayer (old : Option (PointLayer α)) (layer : PointLayer α)
  | removeDataLayer (layer : PointLayer α)
  deriving DecidableEq, Repr

/-- The component and the log of its registry calls, each with the result
of the call (`none`: it returned normally). -/
structure World (α : Type) where
  state : State α
  calls : List (Call α × Option JsError)
  deriving DecidableEq, Repr

/-- The state set by the constructor: `{point: [], point_layer: undefined}`. -/
def constructor {α : Type} : State α :=
  { point := [], point_layer := none }

/-- The world of a freshly constructed component: no call made yet. -/
def World.init {α : Type} : World α :=
  { state := constructor, calls := [] }

/-- The layer literal built by `updatePoint` from the current props. -/
def line_3d {α : Type} (props : Props α) : PointLayer α :=
  { x := [props.x], y := [props.y], z := [props.depth], type := "scatter3d" }

/-- The method `updatePoint`: inside `try`, read `old`, build `line_3d`, call
`updateDataLayer(old, line_3d)` and then `setState({point_layer: line_3d})`;
the `catch` clause is empty, so a throwing callback skips `setState` and the
method still returns. -/
def updatePoint {α : Type} (props : Props α) (w : World α) : Outcome (World α) :=
  let old := w.state.point_layer
  let layer := line_3d props
  let r := props.updateDataLayer old layer
  let calls := w.calls ++ [(Call.updateDataLayer old layer, r)]
  match r with
  | none =>
      { completion := .returned,
        final := { state := { w.state with point_layer := some layer }, calls := calls } }
  | some _ =>
      { completion := .returned, final := { w with calls := calls } }

/-- The method `removePoint`: when `point_layer` is not `undefined`, call
`removeDataLayer(point_layer)` and then `setState({point_layer: undefined})`.
There is no `try`: a throwing callback propagates and skips `setState`. -/
def removePoint {α : Type} (props : Props α) (w : World α) : Outcome (World α) :=
  match w.state.point_layer with
  | some layer =>
      let r := props.removeDataLayer layer
      let calls := w.calls ++ [(Call.removeDataLayer layer, r)]
      match r with
      | none =>
          { completion := .returned,
            final := { state := { w.state with point_layer := none }, calls := calls } }
      | some e =>
          { completion := .threw e, final := { w with calls := calls } }
  | none => { completion := .returned, final := w }

/-- The two click handlers bound in the constructor. -/
inductive Handler where
  | updatePoint
  | removePoint
  deriving DecidableEq, Repr

/-- A rendered `Button`: its label and its `onClick` handler. -/
structure Button where
  label : String
  onClick : Handler
  deriving DecidableEq, Repr

/-- The method `render`: the `+ Point` button, followed by the `X` button
when `point_layer` is not `undefined`. -/
def render {α : Type} (st : State α) : List Button :=
  let removeButton : List Button :=
    if st.point_layer.isSome then [{ label := "X", onClick := .removePoint }] else []
  { label := "+ Point", onClick := .updatePoint } :: removeButton

/-- A click on one of the two buttons, with the props current at the click. -/
inductive Click (α : Type) where
  | update (props : Props α)
  | remove (props : Props α)

/-- Run the handler of a click. -/
def click {α : Type} (w : World α) : Click α → Outcome (World α)
  | .update props => updatePoint props w
  | .remove props => removePoint props w

/-- The world after a sequence of clicks; a handler that throws leaves the
component mounted in the world it reached. -/
def clicks {α : Type} (w : World α) (cs : List (Click α)) : World α :=
  cs.foldl (fun v c => (click v c).final) w

/-- The layer the registry holds for this component according to a call log:
the layer of the last call that returned normally when that call is an
`updateDataLayer`, none when it is a `removeDataLayer` or when no call
returned normally. -/
def registered {α : Type} (log : List (Call α × Option JsError)) : Option (PointLayer α) :=
  log.foldl
    (fun acc c =>
      match c with
      | (Call.updateDataLayer _ layer, none) => some layer
      | (Call.removeDataLayer _, none) => none
      | (_, some _) => acc)
    none

/-- Sample props: the point (1, 2) at depth 3 and a registry whose callbacks
return normally. -/
def sampleProps : Props Int :=
  { x := 1, y := 2, depth := 3,
    updateDataLayer := fun _ _ => none,
    removeDataLayer := fun _ => none }

/-- Sample props whose registry callbacks both throw. -/
def throwingProps : Props Int :=
  { x := 1, y := 2, depth := 3,
    updateDataLayer := fun _ _ => some (.thrown "registry"),
    removeDataLayer := fun _ => some (.thrown "registry") }

end RefPoint

/-! ## MapInputs -/

namespace MapInputs

/-- The parent state handed down as `props.state`, with the seven fields
`render` reads. -/
structure State (V : Type) where
  projection : V
  dataset : V
  «variable» : V
  depth : V
  time : V
  scale : V
  dataset_quantum : V
  deriving DecidableEq, Repr

/-- The property read `props.state[id]`. -/
def State.get {V : Type} (s : State V) (id : String) : Option V :=
  if id = "projection" then some s.projection
  else if id = "dataset" then some s.dataset
  else if id = "variable" then some s.«variable»
  else if id = "depth" then some s.depth
  else if id = "time" then some s.time
  else if id = "scale" then some s.scale
  else if id = "dataset_quantum" then some s.dataset_quantum
  else none

/-- The props of MapInputs: the parent state and its change handler. -/
structure Props (V H : Type) where
  state : State V
  changeHandler : H

/-- The three widget classes imported by MapInputs.jsx. -/
inductive Widget where
  | ComboBox
  | TimePicker
  | Range
  deriving DecidableEq, Repr

/-- An entry of a ComboBox `data` prop. -/
structure Item where
  id : String
  value : String
  deriving DecidableEq, Repr

/-- A widget element with the props `render` may pass; a prop that is not
passed is `none`, and `children` lists the nested elements as tag and text. -/
structure Element (V H : Type) where
  widget : Widget
  key : String
  id : String
  state : V
  «def» : Option String
  onUpdate : H
  data : Option (List Item)
  url : Option String
  title : String
  quantum : Option V
  children : List (String × String)
  deriving DecidableEq, Repr

/-- The wrapping `div` element. -/
structure Div (V H : Type) where
  className : String
  children : List (Element V H)
  deriving DecidableEq, Repr

/-- The method `render`.  `str` is the string conversion JavaScript applies
to the operands of `+` when a url is concatenated. -/
def render {V H : Type} (str : V → String) (props : Props V H) : Div V H :=
  { className := "MapInputs",
    children := [
      { widget := .ComboBox, key := "projection", id := "projection",
        state := props.state.projection, «def» := none,
        onUpdate := props.changeHandler,
        data := some [
          { id := "EPSG:3857", value := "Global" },
          { id := "EPSG:32661", value := "Arctic" },
          { id := "EPSG:3031", value := "Antarctic" }],
        url := none, title := "Projection", quantum := none, children := [] },
      { widget := .ComboBox, key := "dataset", id := "dataset",
        state := props.state.dataset, «def» := some "defaults.dataset",
        onUpdate := props.changeHandler, data := none,
        url := some "/api/datasets/", title := "Dataset", quantum := none,
        children := [] },
      { widget := .ComboBox, key := "variable", id := "variable",
        state := props.state.«variable», «def» := some "defaults.dataset",
        onUpdate := props.changeHandler, data := none,
        url := some ("/api/variables/?vectors&dataset=" ++ str props.state.dataset ++ "&anom"),
        title := "Variable", quantum := none, children := [("h1", "Variable")] },
      { widget := .ComboBox, key := "depth", id := "depth",
        state := props.state.depth, «def» := some "defaults[this.state.type].depth",
        onUpdate := props.changeHandler, data := none,
        url := some ("/api/depth/?variable=" ++ str props.state.«variable»
                      ++ "&dataset=" ++ str props.state.dataset),
        title := "Depth", quantum := none, children := [] },
      { widget := .TimePicker, key := "time", id := "time",
        state := props.state.time, «def» := some "defaults[this.state.type].time",
        onUpdate := props.changeHandler, data := none,
        url := some ("/api/timestamps/?dataset=" ++ str props.state.dataset
                      ++ "&quantum=" ++ str props.state.dataset_quantum),
        title := "Time", quantum := some props.state.dataset_quantum, children := [] },
      { widget := .Range, key := "scale", id := "scale",
        state := props.state.scale, «def» := some "",
        onUpdate := props.changeHandler, data := none,
        url := none, title := "Variable Range", quantum := none, children := [] }] }

/-- The child of the rendered `div` whose id is `id`. -/
def widgetOf {V H : Type} (str : V → String) (props : Props V H) (id : String) :
    Option (Element V H) :=
  (render str props).children.find? (fun e => e.id = id)

/-- Sample props: a parent state of strings and a handler named by a string. -/
def sampleProps : Props String String :=
  { state :=
      { projection := "EPSG:3857", dataset := "giops_day", «variable» := "votemper",
        depth := "0", time := "2018-01-01", scale := "-5,30", dataset_quantum := "day" },
    changeHandler := "changeHandler" }

/-- The depth widget `render` builds from `sampleProps`. -/
def sampleDepthWidget : Element String String :=
  { widget := .ComboBox, key := "depth", id := "depth", state := "0",
    «def» := some "defaults[this.state.type].depth", onUpdate := "changeHandler",
    data := none, url := some "/api/depth/?variable=votemper&dataset=giops_day",
    title := "Depth", quantum := none, children := [] }

/-- A second parent state: it agrees with `sampleProps` on dataset, variable
and quantum and differs on every other field. -/
def sampleProps2 : Props String String :=
  { state :=
      { projection := "EPSG:3031", dataset := "giops_day", «variable» := "votemper",
        depth := "12", time := "2018-02-01", scale := "0,10", dataset_quantum := "day" },
    changeHandler := "otherHandler" }

end MapInputs

/-! ## BathLayer -/

namespace BathLayer

/-- A plotly surface object.  Each property may be absent (`none`); the
component only ever reads or writes these five. -/
structure Surface (V : Type) where
  x : Option V
  y : Option V
  z : Option (List V)
  type : Option String
  colorscale : Option String
  deriving DecidableEq, Repr

/-- A reference to an object of the heap. -/
abbrev Ref := Nat

/-- The surface objects allocated so far; a reference is an index. -/
abbrev Heap (V : Type) := List (Surface V)

/-- The empty object `{}`. -/
def emptyObject {V : Type} : Surface V :=
  { x := none, y := none, z := none, type := none, colorscale := none }

/-- The object literal `{z: [], type: 'surface', colorscale: 'Earth'}`. -/
def defaultSurface {V : Type} : Surface V :=
  { x := none, y := none, z := some [], type := some "surface", colorscale := some "Earth" }

/-- Allocate a new object: its reference and the extended heap. -/
def Heap.alloc {V : Type} (h : Heap V) (o : Surface V) : Ref × Heap V :=
  (h.length, h ++ [o])

/-- Assign properties of the object at `r`; the other objects are untouched. -/
def Heap.write {V : Type} (h : Heap V) (r : Ref) (f : Surface V → Surface V) : Heap V :=
  match h[r]? with
  | some o => h.set r (f o)
  | none => h

/-- The call `jQuery.extend({}, layer)`: a new object `{}` that receives each
property of `layer` whose value is not `undefined`. -/
def jQueryExtend {V : Type} (h : Heap V) (layer : Ref) : Ref × Heap V :=
  Heap.alloc h ((h[layer]?).getD emptyObject)

/-- The object `query` built by `get_bathymetry`. -/
structure Query (V : Type) where
  area : V
  interp : V
  neighbours : V
  projection : V
  radius : V
  deriving DecidableEq, Repr

/-- The props BathLayer reads: the five query parameters, the coordinates,
the url builder and the parent's `updateDataLayer`, which receives the two
references (and may inspect the heap they point into). -/
structure Props (V : Type) where
  area : V
  interp : V
  neighbours : V
  projection : V
  radius : V
  lat : V
  lon : V
  urlFromQuery : String → Query V → String
  updateDataLayer : Heap V → Option Ref → Ref → Option JsError

/-- The component state `this.state`. -/
structure State (V : Type) where
  data : List V
  surface : Option Ref
  deriving DecidableEq, Repr

/-- The callbacks this component hands to jQuery. -/
inductive Callback where
  | get_bathymetry_success
  deriving DecidableEq, Repr

/-- The settings object of a `$.ajax` call: the four properties of the
literal in `get_bathymetry` (there is no `error` or `complete` callback).
jQuery invokes `success` with `this` bound to this object, so the object also
carries the `surface_lock` property the callback assigns through `this`
(`none`: the property is absent). -/
structure AjaxSettings where
  type : String
  dataType : String
  url : String
  success : Callback
  surface_lock : Option Bool
  deriving DecidableEq, Repr

/-- The component instance (`this.surface_lock`, `this.state`), whether React
has unmounted it, the heap of surface objects, the `$.ajax` calls issued and
the `updateDataLayer` calls made, each with its result. -/
structure World (V : Type) where
  surface_lock : Bool
  state : State V
  unmounted : Bool
  heap : Heap V
  requests : List AjaxSettings
  calls : List ((Option Ref × Ref) × Option JsError)
  deriving DecidableEq, Repr

/-- The global object that the free identifier `self` denotes in a method
with no local `self` (the browser's `window.self`), seen through the one
property read from it: `state`, `none` when the page defines no global
`state`. -/
structure Globals (V : Type) where
  state : Option (State V)
  deriving DecidableEq, Repr

/-- The globals of a page that defines no global `state`. -/
def Globals.browser {V : Type} : Globals V :=
  { state := none }

/-- The constructor: `surface_lock = false`, `state = {data: [], surface:
undefined}`; the new instance has not been unmounted and nothing is
allocated, requested or called yet. -/
def constructor {V : Type} : World V :=
  { surface_lock := false,
    state := { data := [], surface := none },
    unmounted := false,
    heap := [], requests := [], calls := [] }

/-- React unmounting the component.  The class has no `componentWillUnmount`,
so nothing else happens: a pending request is not aborted and its `success`
callback can still run. -/
def unmount {V : Type} (w : World V) : World V :=
  { w with unmounted := true }

/-- The loop `while (flag) {}` run for at most `fuel` iterations: `true`
when the loop is left.  The body is empty, so the flag cannot change. -/
def busyWait : Nat → Bool → Bool
  | _, false => true
  | 0, true => false
  | fuel + 1, true => busyWait fuel true

/-- The truthiness of a flag property that may be absent. -/
def truthy (flag : Option Bool) : Bool :=
  flag.getD false

/-- The completion of a handler whose last statement is a callback call with
result `r`: it throws what the callback throws. -/
def completionOf (r : Option JsError) : Completion :=
  match r with
  | none => .returned
  | some e => .threw e

/-- The method `get_bathymetry`: build `query` from five props and issue one
`$.ajax` call with `type`, `dataType`, `url` and a `success` callback. -/
def get_bathymetry {V : Type} (props : Props V) (w : World V) : Outcome (World V) :=
  let query : Query V :=
    { area := props.area, interp := props.interp, neighbours := props.neighbours,
      projection := props.projection, radius := props.radius }
  let settings : AjaxSettings :=
    { type := "GET", dataType := "json",
      url := props.urlFromQuery "/api/v1.0/data/bathymetry/" query,
      success := .get_bathymetry_success, surface_lock := none }
  { completion := .returned, final := { w with requests := w.requests ++ [settings] } }

/-- The method `componentDidMount`. -/
def componentDidMount {V : Type} (props : Props V) (w : World V) : Outcome (World V) :=
  get_bathymetry props w

/-- The `success` callback of `get_bathymetry`, called by jQuery with `this`
bound to `settings` and `self` bound to the component.  It waits on and sets
`this.surface_lock`, copies the component's surface (or the default one),
assigns `z`, calls `setState` (whose completion callback clears
`this.surface_lock`) and calls `updateDataLayer(old, layer)`.  On an unmounted
component the `setState` is dropped: the state is left as it was and the
flag stays set. -/
def success {V : Type} (fuel : Nat) (props : Props V) (settings : AjaxSettings)
    (result : List V) (w : World V) : Outcome (AjaxSettings × World V) :=
  if busyWait fuel (truthy settings.surface_lock) then
    let old := w.state.surface
    let (layer, h1) :=
      match old with
      | none => Heap.alloc w.heap defaultSurface
      | some r => (r, w.heap)
    let (copy, h2) := jQueryExtend h1 layer
    let h3 := Heap.write h2 copy (fun o => { o with z := some result })
    let settings2 :=
      { settings with surface_lock := if w.unmounted then some true else some false }
    let state2 : State V :=
      if w.unmounted then w.state else { data := result, surface := some copy }
    let r := props.updateDataLayer h3 old copy
    let w2 : World V :=
      { w with
        state := state2,
        heap := h3,
        calls := w.calls ++ [((old, copy), r)] }
    { completion := completionOf r, final := (settings2, w2) }
  else
    { completion := .spins, final := (settings, w) }

/-- The method `componentDidUpdate`.  `sne` is the operator `!==` on prop
values.  When a coordinate differs it waits on and sets `this.surface_lock`,
then reads `self.state.surface`: the method has no local `self`, so this is a
read from the global object and throws a `TypeError` when the global `state`
is `undefined`.  Otherwise it copies that surface (or the default one),
assigns `x` and `y` and calls `setState`, whose completion callback clears
`this.surface_lock`; on an unmounted component that `setState` is dropped. -/
def componentDidUpdate {V : Type} (sne : V → V → Bool) (g : Globals V) (fuel : Nat)
    (prevProps props : Props V) (w : World V) : Outcome (World V) :=
  if sne prevProps.lat props.lat || sne prevProps.lon props.lon then
    if busyWait fuel w.surface_lock then
      let w1 := { w with surface_lock := true }
      match g.state with
      | none => { completion := .threw .typeError, final := w1 }
      | some selfState =>
          let old := selfState.surface
          let (layer, h1) :=
            match old with
            | none => Heap.alloc w1.heap defaultSurface
            | some r => (r, w1.heap)
          let (copy, h2) := jQueryExtend h1 layer
          let h3 := Heap.write h2 copy (fun o => { o with x := some props.lon, y := some props.lat })
          { completion := .returned,
            final := { w1 with
              state := if w1.unmounted then w1.state else { w1.state with surface := some copy },
              heap := h3,
              surface_lock := if w1.unmounted then true else false } }
    else
      { completion := .spins, final := w }
  else
    { completion := .returned, final := w }

/-- The response of the server to a request, as jQuery sees it. -/
inductive Response (V : Type) where
  | ok (result : List V)
  | failed
  deriving DecidableEq, Repr

/-- The dispatch jQuery performs when a request completes: on success it
calls the `success` callback of the settings; on failure it would call their
`error` callback, and these settings have none. -/
def ajaxComplete {V : Type} (fuel : Nat) (props : Props V) (settings : AjaxSettings)
    (resp : Response V) (w : World V) : Outcome (AjaxSettings × World V) :=
  match resp with
  | .ok result =>
      match settings.success with
      | .get_bathymetry_success => success fuel props settings result w
  | .failed => { completion := .returned, final := (settings, w) }

/-- The method `render`: it returns `null`. -/
def render {V : Type} (_w : World V) : Option Unit :=
  none

/-- The object `state.surface` denotes, the default literal when it is
`undefined`: the layer a handler starts from. -/
def currentSurface {V : Type} (w : World V) : Surface V :=
  match w.state.surface with
  | none => defaultSurface
  | some r => (w.heap[r]?).getD emptyObject

/-- The operator `!==` on integer props. -/
def intNe (a b : Int) : Bool :=
  decide (a ≠ b)

/-- Sample props at the given coordinates: a url builder that appends a
fixed query string and a registry whose callback returns normally. -/
def sampleProps (lat lon : Int) : Props Int :=
  { area := 1, interp := 2, neighbours := 3, projection := 4, radius := 5,
    lat := lat, lon := lon,
    urlFromQuery := fun base _ => base ++ "?query",
    updateDataLayer := fun _ _ _ => none }

/-- The settings object a `get_bathymetry` call with `sampleProps` creates. -/
def sampleSettings : AjaxSettings :=
  { type := "GET", dataType := "json", url := "/api/v1.0/data/bathymetry/?query",
    success := .get_bathymetry_success, surface_lock := none }

/-- A component that was mounted with `sampleProps` and then unmounted while
its request was still pending. -/
def sampleUnmounted : World Int :=
  unmount (componentDidMount (sampleProps 0 0) constructor).final

/-- The globals of a page whose global `state` is an object with no surface. -/
def sampleGlobals : Globals Int :=
  { state := some { data := [], surface := none } }

end BathLayer

end OceanNavigator

namespace OceanNavigator

/-! ## Properties of RefPoint -/

namespace RefPoint

theorem clicks_snoc {α : Type} (w : World α) (cs : List (Click α)) (c : Click α) :
    clicks w (cs ++ [c]) = (click (clicks w cs) c).final := by
  simp [clicks, List.foldl_append]

theorem registered_snoc {α : Type} (log : List (Call α × Option JsError))
    (c : Call α × Option JsError) :
    registered (log ++ [c]) =
      match c with
      | (Call.updateDataLayer _ layer, none) => some layer
      | (Call.removeDataLayer _, none) => none
      | (_, some _) => registered log := by
  simp only [registered, List.foldl_append, List.foldl_cons, List.foldl_nil]

theorem updatePoint_of_ok {α : Type} (props : Props α) (w : World α)
    (h : props.updateDataLayer w.state.point_layer (line_3d props) = none) :
    updatePoint props w =
      { completion := .returned,
        final := { state := { w.state with point_layer := some (line_3d props) },
                   calls := w.calls ++
                     [(Call.updateDataLayer w.state.point_layer (line_3d props), none)] } } := by
  unfold updatePoint
  simp only [h]

theorem updatePoint_of_throw {α : Type} (props : Props α) (w : World α) (e : JsError)
    (h : props.updateDataLayer w.state.point_layer (line_3d props) = some e) :
    updatePoint props w =
      { completion := .returned,
        final := { w with calls := w.calls ++
                     [(Call.updateDataLayer w.state.point_layer (line_3d props), some e)] } } := by
  unfold updatePoint
  simp only [h]

theorem removePoint_of_none {α : Type} (props : Props α) (w : World α)
    (h : w.state.point_layer = none) :
    removePoint props w = { completion := .returned, final := w } := by
  unfold removePoint
  simp only [h]

theorem removePoint_of_ok {α : Type} (props : Props α) (w : World α) (layer : PointLayer α)
    (h : w.state.point_layer = some layer) (hr : props.removeDataLayer layer = none) :
    removePoint props w =
      { completion := .returned,
        final := { state := { w.state with point_layer := none },
                   calls := w.calls ++ [(Call.removeDataLayer layer, none)] } } := by
  unfold removePoint
  simp only [h, hr]

theorem removePoint_of_throw {α : Type} (props : Props α) (w : World α) (layer : PointLayer α)
    (e : JsError) (h : w.state.point_layer = some layer)
    (hr : props.removeDataLayer layer = some e) :
    removePoint props w =
      { completion := .threw e,
        final := { w with calls := w.calls ++ [(Call.removeDataLayer layer, some e)] } } := by
  unfold removePoint
  simp only [h, hr]

theorem click_keeps_registered {α : Type} (w : World α) (c : Click α)
    (h : w.state.point_layer = registered w.calls) :
    (click w c).final.state.point_layer = registered (click w c).final.calls := by
  cases c with
  | update props =>
      simp only [click]
      cases hr : props.updateDataLayer w.state.point_layer (line_3d props) with
      | none => simp [updatePoint_of_ok props w hr, registered_snoc]
      | some e => simp [updatePoint_of_throw props w e hr, registered_snoc, h]
  | remove props =>
      simp only [click]
      cases hl : w.state.point_layer with
      | none => simpa [removePoint_of_none props w hl, hl] using h
      | some layer =>
          cases hr : props.removeDataLayer layer with
          | none => simp [removePoint_of_ok props w layer hl hr, registered_snoc]
          | some e => simp [removePoint_of_throw props w layer e hl hr, registered_snoc, ← h, hl]

theorem clicks_keep_registered {α : Type} (cs : List (Click α)) :
    (clicks (World.init : World α) cs).state.point_layer
      = registered (clicks (World.init : World α) cs).calls := by
  induction cs using List.reverseRecOn with
  | nil => rfl
  | append_singleton cs c ih =>
      rw [clicks_snoc]
      exact click_keeps_registered _ c ih

/-- C1: when the `updateDataLayer` callback returns normally, `updatePoint`
returns after exactly one registry call, `updateDataLayer(old, L)` with `old`
the prior `state.point_layer` and `L` the literal built from the props `x`,
`y`, `depth` with type `scatter3d` (so no `removeDataLayer` call is made),
and afterwards `state.point_layer` is `L`, the rest of the state as before. -/
theorem updatePoint_registers {α : Type} (props : Props α) (w : World α)
    (hok : props.updateDataLayer w.state.point_layer (line_3d props) = none) :
    line_3d props = { x := [props.x], y := [props.y], z := [props.depth], type := "scatter3d" }
    ∧ (updatePoint props w).completion = .returned
    ∧ (updatePoint props w).final.calls
        = w.calls ++ [(Call.updateDataLayer w.state.point_layer (line_3d props), none)]
    ∧ (updatePoint props w).final.state.point_layer = some (line_3d props)
    ∧ (updatePoint props w).final.state.point = w.state.point := by
  rw [updatePoint_of_ok props w hok]
  exact ⟨rfl, rfl, rfl, rfl, rfl⟩

theorem updatePoint_registers_witness :
    sampleProps.updateDataLayer (World.init : World Int).state.point_layer (line_3d sampleProps) = none
    ∧ (updatePoint sampleProps World.init).final.calls
        = [(Call.updateDataLayer none
              ({ x := [1], y := [2], z := [3], type := "scatter3d" } : PointLayer Int), none)]
    ∧ (updatePoint sampleProps World.init).final.state.point_layer
        = some { x := [1], y := [2], z := [3], type := "scatter3d" } :=
  ⟨rfl, (updatePoint_registers sampleProps World.init rfl).2.2.1,
    (updatePoint_registers sampleProps World.init rfl).2.2.2.1⟩

/-- C2, as stated, fails when the registry callback throws: after a
successful `updatePoint`, a `removePoint` whose `removeDataLayer` call throws
rethrows, and `state.point_layer` is still the registered layer, not the
initial `undefined`. -/
theorem removePoint_throw_keeps_layer :
    (updatePoint sampleProps (World.init : World Int)).final.state.point_layer
        = some { x := [1], y := [2], z := [3], type := "scatter3d" }
    ∧ (removePoint throwingProps (updatePoint sampleProps World.init).final).completion
        = .threw (.thrown "registry")
    ∧ (removePoint throwingProps (updatePoint sampleProps World.init).final).final.calls
        = [(Call.updateDataLayer none (line_3d sampleProps), none),
           (Call.removeDataLayer (line_3d sampleProps), some (JsError.thrown "registry"))]
    ∧ (removePoint throwingProps (updatePoint sampleProps World.init).final).final.state.point_layer
        ≠ (constructor : State Int).point_layer := by
  decide

/-- C2, amended: when `state.point_layer` is `undefined`, `removePoint` makes
no registry call and leaves the state unchanged; otherwise it makes exactly
one registry call, `removeDataLayer(state.point_layer)`, and, when that call
returns normally, sets `state.point_layer` to `undefined` and leaves the rest
of the state (when the call throws, `removePoint` throws the same value and
leaves the state unchanged).  So `updatePoint` followed by a `removePoint`
whose callback returns normally leaves `point_layer` at its initial value. -/
theorem removePoint_deregisters {α : Type} (props : Props α) (w : World α) :
    (w.state.point_layer = none → removePoint props w = { completion := .returned, final := w })
    ∧ (∀ layer, w.state.point_layer = some layer →
        (removePoint props w).final.calls
            = w.calls ++ [(Call.removeDataLayer layer, props.removeDataLayer layer)]
        ∧ (props.removeDataLayer layer = none →
            (removePoint props w).completion = .returned
            ∧ (removePoint props w).final.state.point_layer = none
            ∧ (removePoint props w).final.state.point = w.state.point)
        ∧ (∀ e, props.removeDataLayer layer = some e →
            (removePoint props w).completion = .threw e
            ∧ (removePoint props w).final.state = w.state))
    ∧ (∀ props0 : Props α, (∀ layer, props.removeDataLayer layer = none) →
        (removePoint props (updatePoint props0 w).final).completion = .returned
        ∧ (removePoint props (updatePoint props0 w).final).final.state.point_layer
            = (constructor : State α).point_layer) := by
  refine ⟨removePoint_of_none props w, ?_, ?_⟩
  · intro layer hl
    cases hr : props.removeDataLayer layer with
    | none => simp [removePoint_of_ok props w layer hl hr]
    | some e => simp [removePoint_of_throw props w layer e hl hr]
  · intro props0 hrm
    cases hl : (updatePoint props0 w).final.state.point_layer with
    | none => simp [removePoint_of_none props _ hl, hl, constructor]
    | some layer => simp [removePoint_of_ok props _ layer hl (hrm layer), constructor]

theorem removePoint_deregisters_witness :
    (updatePoint sampleProps (World.init : World Int)).final.state.point_layer
        = some (line_3d sampleProps)
    ∧ sampleProps.removeDataLayer (line_3d sampleProps) = none
    ∧ (removePoint sampleProps (updatePoint sampleProps World.init).final).completion = .returned
    ∧ (removePoint sampleProps (updatePoint sampleProps World.init).final).final.state.point_layer
        = none
    ∧ (removePoint sampleProps (updatePoint sampleProps World.init).final).final.state.point
        = (updatePoint sampleProps (World.init : World Int)).final.state.point :=
  ⟨rfl, rfl,
    ((removePoint_deregisters sampleProps (updatePoint sampleProps World.init).final).2.1
      (line_3d sampleProps) rfl).2.1 rfl⟩

/-- C10: `updatePoint` never throws, and when its `updateDataLayer` call
throws it leaves the whole state (`point_layer` and `point`) unchanged;
`render` shows the remove button exactly when `state.point_layer` is not
`undefined`; and after any sequence of clicks on a new component
`state.point_layer` is the layer of the last registry call that returned
normally when that call is an `updateDataLayer`, and `undefined` otherwise, so
the button is shown exactly when a layer was registered and not removed
since. -/
theorem updatePoint_atomic {α : Type} (props : Props α) (w : World α) :
    (updatePoint props w).completion = .returned
    ∧ (props.updateDataLayer w.state.point_layer (line_3d props) ≠ none →
        (updatePoint props w).final.state = w.state)
    ∧ (∀ st : State α,
        ({ label := "X", onClick := .removePoint } ∈ render st ↔ st.point_layer ≠ none))
    ∧ (∀ cs : List (Click α),
        (clicks (World.init : World α) cs).state.point_layer
            = registered (clicks (World.init : World α) cs).calls
        ∧ ({ label := "X", onClick := .removePoint } ∈ render (clicks (World.init : World α) cs).state
            ↔ registered (clicks (World.init : World α) cs).calls ≠ none)) := by
  have hrender : ∀ st : State α,
      ({ label := "X", onClick := .removePoint } ∈ render st ↔ st.point_layer ≠ none) := by
    intro st
    cases hl : st.point_layer <;> simp [render, hl]
  refine ⟨?_, ?_, hrender, ?_⟩
  · cases hr : props.updateDataLayer w.state.point_layer (line_3d props) with
    | none => rw [updatePoint_of_ok props w hr]
    | some e => rw [updatePoint_of_throw props w e hr]
  · intro hne
    cases hr : props.updateDataLayer w.state.point_layer (line_3d props) with
    | none => exact absurd hr hne
    | some e => rw [updatePoint_of_throw props w e hr]
  · intro cs
    refine ⟨clicks_keep_registered cs, ?_⟩
    rw [hrender, clicks_keep_registered cs]

theorem updatePoint_atomic_witness :
    throwingProps.updateDataLayer (updatePoint sampleProps (World.init : World Int)).final.state.point_layer
        (line_3d throwingProps) ≠ none
    ∧ (updatePoint throwingProps (updatePoint sampleProps World.init).final).final.state
        = (updatePoint sampleProps (World.init : World Int)).final.state :=
  ⟨by decide,
    (updatePoint_atomic throwingProps (updatePoint sampleProps World.init).final).2.1 (by decide)⟩

end RefPoint


/-! ## Properties of MapInputs -/

namespace MapInputs

/-- C6: `render` composes exactly six widgets, in the order projection,
dataset, variable, depth, time, scale; their ids are pairwise distinct; and
each widget has its key equal to its id, its `state` prop equal to
`props.state[id]` and its `onUpdate` prop equal to `props.changeHandler`. -/
theorem render_six_widgets {V H : Type} (str : V → String) (props : Props V H) :
    (render str props).children.map (fun e => e.id)
        = ["projection", "dataset", "variable", "depth", "time", "scale"]
    ∧ (render str props).children.length = 6
    ∧ ((render str props).children.map (fun e => e.id)).Nodup
    ∧ ∀ e ∈ (render str props).children,
        e.key = e.id ∧ props.state.get e.id = some e.state ∧ e.onUpdate = props.changeHandler := by
  refine ⟨rfl, rfl, ?_, ?_⟩
  · simp [render]
  · intro e he
    simp only [render, List.mem_cons, List.mem_singleton, List.not_mem_nil, or_false] at he
    rcases he with h | h | h | h | h | h <;> subst h <;> simp [State.get]

theorem render_six_widgets_witness :
    sampleDepthWidget ∈ (render (fun v => v) sampleProps).children
    ∧ sampleDepthWidget.key = sampleDepthWidget.id
    ∧ sampleProps.state.get sampleDepthWidget.id = some sampleDepthWidget.state
    ∧ sampleDepthWidget.onUpdate = sampleProps.changeHandler :=
  ⟨by decide,
    (render_six_widgets (fun v => v) sampleProps).2.2.2 sampleDepthWidget (by decide)⟩

/-- C7: the variable widget requests
`/api/variables/?vectors&dataset=<dataset>&anom`, the depth widget
`/api/depth/?variable=<variable>&dataset=<dataset>` and the time widget
`/api/timestamps/?dataset=<dataset>&quantum=<dataset_quantum>`, the time
widget receiving `dataset_quantum` as its `quantum` prop; the urls of all the
widgets are the same for two parent states that agree on dataset, variable
and dataset_quantum. -/
theorem request_urls {V H : Type} (str : V → String) (props : Props V H) :
    (widgetOf str props "variable").map (fun e => e.url)
        = some (some ("/api/variables/?vectors&dataset=" ++ str props.state.dataset ++ "&anom"))
    ∧ (widgetOf str props "depth").map (fun e => e.url)
        = some (some ("/api/depth/?variable=" ++ str props.state.«variable»
                        ++ "&dataset=" ++ str props.state.dataset))
    ∧ (widgetOf str props "time").map (fun e => (e.url, e.quantum))
        = some (some ("/api/timestamps/?dataset=" ++ str props.state.dataset
                        ++ "&quantum=" ++ str props.state.dataset_quantum),
                some props.state.dataset_quantum)
    ∧ ∀ props2 : Props V H,
        props2.state.dataset = props.state.dataset →
        props2.state.«variable» = props.state.«variable» →
        props2.state.dataset_quantum = props.state.dataset_quantum →
        (render str props2).children.map (fun e => (e.id, e.url))
          = (render str props).children.map (fun e => (e.id, e.url)) := by
  refine ⟨?_, ?_, ?_, ?_⟩
  · simp [widgetOf, render]
  · simp [widgetOf, render]
  · simp [widgetOf, render]
  · intro props2 hd hv hq
    simp [render, hd, hv, hq]

theorem request_urls_witness :
    sampleProps2.state.dataset = sampleProps.state.dataset
    ∧ sampleProps2.state.«variable» = sampleProps.state.«variable»
    ∧ sampleProps2.state.dataset_quantum = sampleProps.state.dataset_quantum
    ∧ sampleProps2.state ≠ sampleProps.state
    ∧ (render (fun v => v) sampleProps2).children.map (fun e => (e.id, e.url))
        = (render (fun v => v) sampleProps).children.map (fun e => (e.id, e.url)) :=
  ⟨rfl, rfl, rfl, by decide,
    (request_urls (fun v => v) sampleProps).2.2.2 sampleProps2 rfl rfl rfl⟩

end MapInputs


/-! ## Properties of BathLayer -/

namespace BathLayer

theorem busyWait_false (fuel : Nat) : busyWait fuel false = true := by
  cases fuel <;> rfl

theorem busyWait_true (fuel : Nat) : busyWait fuel true = false := by
  induction fuel with
  | zero => rfl
  | succ n ih => simpa [busyWait] using ih

theorem write_alloc {V : Type} (h : Heap V) (o : Surface V) (f : Surface V → Surface V) :
    Heap.write (Heap.alloc h o).2 (Heap.alloc h o).1 f = h ++ [f o] := by
  simp [Heap.write, Heap.alloc]

theorem write_jQueryExtend {V : Type} (h : Heap V) (r : Ref) (f : Surface V → Surface V) :
    Heap.write (jQueryExtend h r).2 h.length f
      = h ++ [f ((h[r]?).getD emptyObject)] := by
  simpa [jQueryExtend, Heap.alloc] using write_alloc h ((h[r]?).getD emptyObject) f

theorem jQueryExtend_fst {V : Type} (h : Heap V) (r : Ref) : (jQueryExtend h r).1 = h.length := by
  simp [jQueryExtend, Heap.alloc]

/-- The layer `success` builds and the heap it leaves: a new object after
every object of the prior heap. -/
theorem success_final {V : Type} (fuel : Nat) (props : Props V) (settings : AjaxSettings)
    (result : List V) (w : World V) (hfree : truthy settings.surface_lock = false) :
    ∃ (layer : Ref) (mid : Heap V),
      layer = (w.heap ++ mid).length
      ∧ (success fuel props settings result w).final.2.heap
          = (w.heap ++ mid) ++ [{ currentSurface w with z := some result }]
      ∧ (success fuel props settings result w).final.2.state
          = (if w.unmounted then w.state else { data := result, surface := some layer })
      ∧ (success fuel props settings result w).final.2.calls
          = w.calls ++ [((w.state.surface, layer),
              props.updateDataLayer (success fuel props settings result w).final.2.heap
                w.state.surface layer)]
      ∧ (success fuel props settings result w).completion
          = completionOf (props.updateDataLayer
              (success fuel props settings result w).final.2.heap w.state.surface layer) := by
  cases hs : w.state.surface with
  | none =>
      refine ⟨w.heap.length + 1, [defaultSurface], by simp, ?_⟩
      unfold success
      simp only [hfree, busyWait_false, if_true, hs, jQueryExtend_fst]
      have hlen : (Heap.alloc w.heap (defaultSurface : Surface V)).2.length = w.heap.length + 1 := by
        simp [Heap.alloc]
      simp only [hlen.symm, write_jQueryExtend]
      simp [Heap.alloc, currentSurface, hs]
  | some r =>
      refine ⟨w.heap.length, [], by simp, ?_⟩
      unfold success
      simp only [hfree, busyWait_false, if_true, hs, jQueryExtend_fst, write_jQueryExtend]
      simp [currentSurface, hs]

theorem componentDidUpdate_of_same {V : Type} (sne : V → V → Bool) (g : Globals V) (fuel : Nat)
    (prevProps props : Props V) (w : World V)
    (h : (sne prevProps.lat props.lat || sne prevProps.lon props.lon) = false) :
    componentDidUpdate sne g fuel prevProps props w = { completion := .returned, final := w } := by
  unfold componentDidUpdate
  simp only [h, Bool.false_eq_true, if_false]

theorem componentDidUpdate_of_locked {V : Type} (sne : V → V → Bool) (g : Globals V) (fuel : Nat)
    (prevProps props : Props V) (w : World V)
    (h : (sne prevProps.lat props.lat || sne prevProps.lon props.lon) = true)
    (hl : w.surface_lock = true) :
    componentDidUpdate sne g fuel prevProps props w = { completion := .spins, final := w } := by
  unfold componentDidUpdate
  simp only [h, hl, busyWait_true, if_true, Bool.false_eq_true, if_false]

theorem componentDidUpdate_of_browser {V : Type} (sne : V → V → Bool) (fuel : Nat)
    (prevProps props : Props V) (w : World V)
    (h : (sne prevProps.lat props.lat || sne prevProps.lon props.lon) = true)
    (hl : w.surface_lock = false) :
    componentDidUpdate sne Globals.browser fuel prevProps props w
      = { completion := .threw .typeError, final := { w with surface_lock := true } } := by
  unfold componentDidUpdate
  simp only [h, hl, busyWait_false, if_true, Globals.browser]

theorem componentDidUpdate_requests {V : Type} (sne : V → V → Bool) (g : Globals V) (fuel : Nat)
    (prevProps props : Props V) (w : World V) :
    (componentDidUpdate sne g fuel prevProps props w).final.requests = w.requests := by
  unfold componentDidUpdate
  split
  · split
    · cases g.state <;> rfl
    · rfl
  · rfl

/-- C3, as stated, fails once the component is unmounted: the request is
never aborted, so the success handler still runs, builds the layer and calls
`updateDataLayer` once, but React drops its `setState` and `state.data` and
`state.surface` stay as they were instead of becoming the result and the new
layer. -/
theorem success_after_unmount_keeps_state :
    truthy sampleSettings.surface_lock = false
    ∧ sampleUnmounted.requests = [sampleSettings]
    ∧ (success 0 (sampleProps 0 0) sampleSettings [7, 8] sampleUnmounted).completion = .returned
    ∧ (success 0 (sampleProps 0 0) sampleSettings [7, 8] sampleUnmounted).final.2.calls
        = [((none, 1), none)]
    ∧ (success 0 (sampleProps 0 0) sampleSettings [7, 8] sampleUnmounted).final.2.state
        = { data := [], surface := none }
    ∧ (success 0 (sampleProps 0 0) sampleSettings [7, 8] sampleUnmounted).final.2.state.data
        ≠ [7, 8] := by
  decide

/-- C3, amended: called with its own lock free, the fetch success handler
builds a new object, allocated after every object of the prior heap, that
equals the prior surface (the default `z: [], type: surface, colorscale:
Earth` when the prior surface is `undefined`) with `z` replaced by the result;
it calls `updateDataLayer` exactly once, with the prior surface and that new
object; it leaves every object of the prior heap as it was; and it does not
spin.  On a component that has not been unmounted it sets `state.data` to the
result and `state.surface` to the new object; on an unmounted one it leaves
the state unchanged. -/
theorem success_merges {V : Type} (fuel : Nat) (props : Props V) (settings : AjaxSettings)
    (result : List V) (w : World V) (hfree : truthy settings.surface_lock = false) :
    ∃ layer : Ref,
      w.heap.length ≤ layer
      ∧ (w.unmounted = false →
          (success fuel props settings result w).final.2.state
            = { data := result, surface := some layer })
      ∧ (w.unmounted = true →
          (success fuel props settings result w).final.2.state = w.state)
      ∧ (success fuel props settings result w).final.2.heap[layer]?
          = some { x := (currentSurface w).x, y := (currentSurface w).y, z := some result,
                   type := (currentSurface w).type, colorscale := (currentSurface w).colorscale }
      ∧ (success fuel props settings result w).final.2.calls
          = w.calls ++ [((w.state.surface, layer),
              props.updateDataLayer (success fuel props settings result w).final.2.heap
                w.state.surface layer)]
      ∧ (∀ r : Ref, r < w.heap.length →
          (success fuel props settings result w).final.2.heap[r]? = w.heap[r]?)
      ∧ (success fuel props settings result w).completion ≠ .spins := by
  obtain ⟨layer, mid, hlayer, hheap, hstate, hcalls, hcompl⟩ :=
    success_final fuel props settings result w hfree
  refine ⟨layer, ?_, ?_, ?_, ?_, hcalls, ?_, ?_⟩
  · simp [hlayer]
  · intro hm
    rw [hstate, hm]
    rfl
  · intro hm
    rw [hstate, hm]
    rfl
  · rw [hheap, hlayer]
    exact List.getElem?_concat_length _ _
  · intro r hr
    rw [hheap, List.append_assoc]
    exact List.getElem?_append_left hr
  · rw [hcompl]
    cases props.updateDataLayer (success fuel props settings result w).final.2.heap
      w.state.surface layer <;> simp [completionOf]

theorem success_merges_witness :
    truthy sampleSettings.surface_lock = false
    ∧ (constructor : World Int).unmounted = false
    ∧ ∃ layer : Ref,
      (constructor : World Int).heap.length ≤ layer
      ∧ (success 0 (sampleProps 0 0) sampleSettings [7, 8] constructor).final.2.state
          = { data := [7, 8], surface := some layer }
      ∧ (success 0 (sampleProps 0 0) sampleSettings [7, 8] constructor).final.2.heap[layer]?
          = some { x := none, y := none, z := some [7, 8],
                   type := some "surface", colorscale := some "Earth" } := by
  refine ⟨rfl, rfl, ?_⟩
  obtain ⟨layer, h1, h2, -, h3, -⟩ :=
    success_merges 0 (sampleProps 0 0) sampleSettings [7, 8] constructor rfl
  exact ⟨layer, h1, h2 rfl, h3⟩

/-- C4, as stated, fails: an update whose `lat` differs from the previous
props issues no request, neither when `componentDidUpdate` throws on
`self.state` (a page with no global `state`) nor when it runs to completion
(a page with one). -/
theorem componentDidUpdate_issues_no_fetch :
    intNe (sampleProps 0 0).lat (sampleProps 1 0).lat = true
    ∧ (componentDidUpdate intNe Globals.browser 0 (sampleProps 0 0) (sampleProps 1 0)
        constructor).final.requests = []
    ∧ (componentDidUpdate intNe sampleGlobals 0 (sampleProps 0 0) (sampleProps 1 0)
        constructor).completion = .returned
    ∧ (componentDidUpdate intNe sampleGlobals 0 (sampleProps 0 0) (sampleProps 1 0)
        constructor).final.requests = [] := by
  decide

/-- C4, amended: BathLayer fetches bathymetry data on mount only.
`componentDidUpdate` issues no request, whether or not `lat` or `lon` differs
from the previous props and however it completes, while `componentDidMount`
issues one; and the request of a mount does not depend on `lat` or `lon`. -/
theorem componentDidUpdate_never_fetches {V : Type} (sne : V → V → Bool) (g : Globals V)
    (fuel : Nat) (prevProps props : Props V) (w : World V) :
    (componentDidUpdate sne g fuel prevProps props w).final.requests = w.requests
    ∧ (componentDidMount props w).final.requests.length = w.requests.length + 1
    ∧ ∀ lat lon : V,
        (componentDidMount { props with lat := lat, lon := lon } w).final.requests
          = (componentDidMount props w).final.requests := by
  refine ⟨componentDidUpdate_requests sne g fuel prevProps props w, ?_, ?_⟩
  · simp [componentDidMount, get_bathymetry]
  · intro lat lon
    rfl

/-- C5: `componentDidMount` returns after issuing exactly one `$.ajax` call,
a GET for json whose url is `urlFromQuery` applied to
`/api/v1.0/data/bathymetry/` and the query made of the five props area,
interp, neighbours, projection and radius, so the request is the same
whatever `lat` and `lon` are; and no completion of a request, success or
failure, issues another request, a failure leaving the component as it
was, nor does any later `componentDidUpdate`. -/
theorem componentDidMount_one_request {V : Type} (props : Props V) (w : World V) :
    (componentDidMount props w).completion = .returned
    ∧ (componentDidMount props w).final.requests
        = w.requests ++
            [{ type := "GET", dataType := "json",
               url := props.urlFromQuery "/api/v1.0/data/bathymetry/"
                 { area := props.area, interp := props.interp, neighbours := props.neighbours,
                   projection := props.projection, radius := props.radius },
               success := .get_bathymetry_success, surface_lock := none }]
    ∧ (∀ lat lon : V,
        (componentDidMount { props with lat := lat, lon := lon } w).final.requests
          = (componentDidMount props w).final.requests)
    ∧ (∀ (fuel : Nat) (props2 : Props V) (settings : AjaxSettings) (resp : Response V)
          (w2 : World V),
        (ajaxComplete fuel props2 settings resp w2).final.2.requests = w2.requests)
    ∧ (∀ (fuel : Nat) (props2 : Props V) (settings : AjaxSettings) (w2 : World V),
        ajaxComplete fuel props2 settings .failed w2
          = { completion := .returned, final := (settings, w2) })
    ∧ (∀ (sne : V → V → Bool) (g : Globals V) (fuel : Nat) (prevProps props2 : Props V)
          (w2 : World V),
        (componentDidUpdate sne g fuel prevProps props2 w2).final.requests = w2.requests) := by
  refine ⟨rfl, rfl, fun _ _ => rfl, ?_, fun _ _ _ _ => rfl, componentDidUpdate_requests⟩
  intro fuel props2 settings resp w2
  cases resp with
  | failed => rfl
  | ok result =>
      cases hcb : settings.success
      simp only [ajaxComplete, hcb]
      unfold success
      split <;> rfl

/-- C9: on a page with no global `state`, an update in which `lat` or `lon`
differs does not complete: entered with the lock free, `componentDidUpdate`
sets `surface_lock` and then throws a `TypeError` on `self.state.surface`,
leaving `state.surface`, `state.data` and the heap as they were and the lock
set.  When neither coordinate differs it changes nothing. -/
theorem componentDidUpdate_throws {V : Type} (sne : V → V → Bool) (fuel : Nat)
    (prevProps props : Props V) (w : World V) (hfree : w.surface_lock = false) :
    ((sne prevProps.lat props.lat || sne prevProps.lon props.lon) = true →
        (componentDidUpdate sne Globals.browser fuel prevProps props w).completion
            = .threw .typeError
        ∧ (componentDidUpdate sne Globals.browser fuel prevProps props w).final.state = w.state
        ∧ (componentDidUpdate sne Globals.browser fuel prevProps props w).final.heap = w.heap
        ∧ (componentDidUpdate sne Globals.browser fuel prevProps props w).final.surface_lock
            = true)
    ∧ ((sne prevProps.lat props.lat || sne prevProps.lon props.lon) = false →
        componentDidUpdate sne Globals.browser fuel prevProps props w
          = { completion := .returned, final := w }) := by
  refine ⟨fun h => ?_, componentDidUpdate_of_same sne _ fuel prevProps props w⟩
  rw [componentDidUpdate_of_browser sne fuel prevProps props w h hfree]
  exact ⟨rfl, rfl, rfl, rfl⟩

theorem componentDidUpdate_throws_witness :
    (constructor : World Int).surface_lock = false
    ∧ (intNe (sampleProps 0 0).lat (sampleProps 1 0).lat
        || intNe (sampleProps 0 0).lon (sampleProps 1 0).lon) = true
    ∧ (componentDidUpdate intNe Globals.browser 0 (sampleProps 0 0) (sampleProps 1 0)
        constructor).completion = .threw .typeError
    ∧ (componentDidUpdate intNe Globals.browser 0 (sampleProps 0 0) (sampleProps 1 0)
        constructor).final.state = { data := [], surface := none } :=
  ⟨rfl, by decide,
    ((componentDidUpdate_throws intNe 0 (sampleProps 0 0) (sampleProps 1 0) constructor rfl).1
      (by decide)).1,
    ((componentDidUpdate_throws intNe 0 (sampleProps 0 0) (sampleProps 1 0) constructor rfl).1
      (by decide)).2.1⟩

/-- C8: the busy-wait flag is not released.  On a page with no global `state`,
a first update with a changed coordinate, entered with the lock free, throws
with `surface_lock` left set, and a second update with a changed coordinate
then never leaves its busy-wait loop, whatever the fuel.  The fetch success
handler waits on and assigns the `surface_lock` of the ajax settings object,
never the one of the component. -/
theorem surface_lock_never_released {V : Type} (sne : V → V → Bool) (p0 p1 p2 : Props V)
    (w : World V) (hfree : w.surface_lock = false)
    (h01 : (sne p0.lat p1.lat || sne p0.lon p1.lon) = true)
    (h12 : (sne p1.lat p2.lat || sne p1.lon p2.lon) = true) :
    (∀ fuel : Nat,
        (componentDidUpdate sne Globals.browser fuel p0 p1 w).completion = .threw .typeError
        ∧ (componentDidUpdate sne Globals.browser fuel p0 p1 w).final.surface_lock = true)
    ∧ (∀ fuel0 fuel : Nat,
        (componentDidUpdate sne Globals.browser fuel p1 p2
          (componentDidUpdate sne Globals.browser fuel0 p0 p1 w).final).completion = .spins)
    ∧ (∀ (fuel : Nat) (props : Props V) (settings : AjaxSettings) (result : List V),
        (success fuel props settings result w).final.2.surface_lock = w.surface_lock) := by
  refine ⟨?_, ?_, ?_⟩
  · intro fuel
    rw [componentDidUpdate_of_browser sne fuel p0 p1 w h01 hfree]
    exact ⟨rfl, rfl⟩
  · intro fuel0 fuel
    rw [componentDidUpdate_of_browser sne fuel0 p0 p1 w h01 hfree]
    rw [componentDidUpdate_of_locked sne _ fuel p1 p2 _ h12 rfl]
  · intro fuel props settings result
    unfold success
    split <;> rfl

theorem surface_lock_never_released_witness :
    (constructor : World Int).surface_lock = false
    ∧ (componentDidUpdate intNe Globals.browser 0 (sampleProps 0 0) (sampleProps 1 0)
        constructor).final.surface_lock = true
    ∧ (componentDidUpdate intNe Globals.browser 1000 (sampleProps 1 0) (sampleProps 2 0)
        (componentDidUpdate intNe Globals.browser 0 (sampleProps 0 0) (sampleProps 1 0)
          constructor).final).completion = .spins :=
  ⟨rfl,
    ((surface_lock_never_released intNe (sampleProps 0 0) (sampleProps 1 0) (sampleProps 2 0)
      constructor rfl (by decide) (by decide)).1 0).2,
    (surface_lock_never_released intNe (sampleProps 0 0) (sampleProps 1 0) (sampleProps 2 0)
      constructor rfl (by decide) (by decide)).2.1 0 1000⟩

end BathLayer

end OceanNavigator
